import Mathlib

set_option linter.unusedVariables false

/-!
Verification of the manifest parser (`mnfs_parser.py`) of the click_id
repository: a shallow embedding of its data model, descriptor
constructors, field accessors, INI reader and `parse_file` routine,
together with theorems settling the specification claims.
-/

/-- Python exception outcomes observable from `parse_file`: the repository's
own `Error` class plus the built-in exceptions that can escape uncaught. -/
inductive PErr where
  | error (msg : String)
  | valueError (msg : String)
  | nameError (msg : String)
  | attributeError (msg : String)
  | duplicateSectionError (sec : String)
  | duplicateOptionError (sec opt : String)
  | missingSectionHeaderError
  | parsingError (line : String)
  | indexError
  | keyError
deriving Repr, DecidableEq

/-- Whitespace characters recognised by Python's `str.strip`/`str.split`. -/
def isWs (c : Char) : Bool :=
  c = ' ' ∨ c = '\t' ∨ c = '\n' ∨ c = '\r' ∨ c = '\x0b' ∨ c = '\x0c'

/-- Model of Python `str.strip()` on a character list. -/
def trimChars (l : List Char) : List Char :=
  ((l.dropWhile isWs).reverse.dropWhile isWs).reverse

/-- Model of Python `str.strip()`. -/
def trimPy (s : String) : String := String.mk (trimChars s.data)

/-- Split a character list on a separator character, keeping empty pieces
(the behaviour of Python `str.split(sep)`). -/
def splitOnChar (c : Char) : List Char → List (List Char)
  | [] => [[]]
  | x :: xs =>
    let r := splitOnChar c xs
    if x = c then [] :: r
    else
      match r with
      | [] => [[x]]
      | y :: ys => (x :: y) :: ys

/-- Lines of a text, split at newline characters. -/
def splitLines (s : String) : List String :=
  (splitOnChar '\n' s.data).map String.mk

/-- Split a character list on whitespace runs, dropping empty pieces
(the behaviour of Python `str.split()` with no argument). -/
def splitWsChars : List Char → List (List Char)
  | [] => []
  | x :: xs =>
    if isWs x then splitWsChars xs
    else
      match splitWsChars xs with
      | [] => [[x]]
      | y :: ys =>
        match xs with
        | [] => [[x]]
        | x' :: _ => if isWs x' then [x] :: y :: ys else (x :: y) :: ys

/-- Model of Python `str.split()` with no argument. -/
def splitPy (s : String) : List String := (splitWsChars s.data).map String.mk

/-- Model of Python `str.strip('"')`. -/
def stripQuotes (s : String) : String :=
  String.mk (((s.data.dropWhile (· = '"')).reverse.dropWhile (· = '"')).reverse)

/-- Value of a hexadecimal digit character, if it is one. -/
def hexVal (c : Char) : Option Nat :=
  if '0' ≤ c ∧ c ≤ '9' then some (c.toNat - '0'.toNat)
  else if 'a' ≤ c ∧ c ≤ 'f' then some (c.toNat - 'a'.toNat + 10)
  else if 'A' ≤ c ∧ c ≤ 'F' then some (c.toNat - 'A'.toNat + 10)
  else none

/-- Read a nonempty digit string in the given base. -/
def digitsToNat (base : Nat) : List Char → Nat → Option Nat
  | [], acc => some acc
  | c :: rest, acc =>
    match hexVal c with
    | some v => if v < base then digitsToNat base rest (acc * base + v) else none
    | none => none

/-- Read a nonempty digit string in the given base, rejecting the empty string. -/
def parseDigits (base : Nat) (l : List Char) : Option Nat :=
  match l with
  | [] => none
  | _ => digitsToNat base l 0

/-- Model of Python `int(s, base=0)`: literal syntax, so a `0x`/`0o`/`0b`
prefix selects the base and a multi-digit decimal may not start with `0`
unless it is all zeros. -/
def pyInt0 (s : String) : Option Int :=
  let t := trimChars s.data
  let (neg, t) :=
    match t with
    | '-' :: r => (true, r)
    | '+' :: r => (false, r)
    | _ => (false, t)
  let mag : Option Nat :=
    match t with
    | '0' :: c :: rest =>
      if c = 'x' ∨ c = 'X' then parseDigits 16 rest
      else if c = 'o' ∨ c = 'O' then parseDigits 8 rest
      else if c = 'b' ∨ c = 'B' then parseDigits 2 rest
      else if (c :: rest).all (· = '0') then some 0
      else none
    | _ => parseDigits 10 t
  mag.map (fun n => if neg then -(n : Int) else (n : Int))

/-- Model of Python `int(s)` (base 10, leading zeros allowed). -/
def pyInt10 (s : String) : Option Int :=
  let t := trimChars s.data
  let (neg, t) :=
    match t with
    | '-' :: r => (true, r)
    | '+' :: r => (false, r)
    | _ => (false, t)
  (parseDigits 10 t).map (fun n => if neg then -(n : Int) else (n : Int))

/-- Model of Python `'{:#x}'.format(i)`. -/
def fmtHex (i : Int) : String :=
  if i < 0 then "-0x" ++ String.mk (Nat.toDigits 16 (-i).toNat)
  else "0x" ++ String.mk (Nat.toDigits 16 i.toNat)

/-- Approximate Python `repr` of a simple string (single quotes). -/
def pyRepr (s : String) : String := "'" ++ s ++ "'"

/-- Insert a key-value pair into a key-sorted association list. -/
def insertPair {α : Type} (p : Int × α) : List (Int × α) → List (Int × α)
  | [] => [p]
  | q :: r => if p.1 ≤ q.1 then p :: q :: r else q :: insertPair p r

/-- Sort an association list by key, modelling iteration over
Python `sorted(dict)`. -/
def sortPairs {α : Type} (l : List (Int × α)) : List (Int × α) :=
  l.foldr insertPair []

/-- Join decimal renderings with single spaces, the net effect of
`str(value).replace('[','').replace(']','').replace(',','')` on an int list. -/
def joinSpace : List Int → String
  | [] => ""
  | [v] => toString v
  | v :: rest => toString v ++ " " ++ joinSpace rest

/-! Section and option name constants of `MnfsParser`. -/

def MNFS_HEADER : String := "manifest-header"
def MNFS_HEADER_VMAJ : String := "version-major"
def MNFS_HEADER_VMIN : String := "version-minor"
def MIKROBUS_DESC : String := "mikrobus-descriptor"
def MNFS_MIKROBUS_PWM_STATE : String := "pwm-state"
def MNFS_MIKROBUS_INT_STATE : String := "int-state"
def MNFS_MIKROBUS_RX_STATE : String := "rx-state"
def MNFS_MIKROBUS_TX_STATE : String := "tx-state"
def MNFS_MIKROBUS_SCL_STATE : String := "scl-state"
def MNFS_MIKROBUS_SDA_STATE : String := "sda-state"
def MNFS_MIKROBUS_MOSI_STATE : String := "mosi-state"
def MNFS_MIKROBUS_MISO_STATE : String := "miso-state"
def MNFS_MIKROBUS_SCK_STATE : String := "sck-state"
def MNFS_MIKROBUS_CS_STATE : String := "cs-state"
def MNFS_MIKROBUS_RST_STATE : String := "rst-state"
def MNFS_MIKROBUS_AN_STATE : String := "an-state"
def INTERFACE_DESC : String := "interface-descriptor"
def INTERFACE_DESC_VSID : String := "vendor-string-id"
def INTERFACE_DESC_PSID : String := "product-string-id"
def BUNDLE_DESC : String := "bundle-descriptor"
def BUNDLE_DESC_CLASS : String := "class"
def CPORT_DESC : String := "cport-descriptor"
def CPORT_DESC_BUNDLE : String := "bundle"
def CPORT_DESC_PROTOCOL : String := "protocol"
def STRING_DESC : String := "string-descriptor"
def STRING_DESC_STRING : String := "string"
def DEVICE_DESC : String := "device-descriptor"
def DEVICE_DESC_DRIVER_STRING_ID : String := "driver-string-id"
def DEVICE_DESC_MAX_SPEED_HZ : String := "max-speed-hz"
def DEVICE_DESC_MODE : String := "mode"
def DEVICE_DESC_PROTOCOL : String := "protocol"
def DEVICE_DESC_REG : String := "reg"
def DEVICE_DESC_IRQ : String := "irq"
def DEVICE_DESC_IRQ_TYPE : String := "irq-type"
def DEVICE_DESC_PROP_LINK : String := "prop-link"
def DEVICE_DESC_GPIO_LINK : String := "gpio-link"
def DEVICE_DESC_REG_LINK : String := "reg-link"
def DEVICE_DESC_CLOCK_LINK : String := "clock-link"
def PROPERTY_DESC : String := "property-descriptor"
def PROPERTY_DESC_NAME_STRING_ID : String := "name-string-id"
def PROPERTY_DESC_TYPE : String := "type"
def PROPERTY_DESC_VALUE : String := "value"

def MNFS_HEADER_VERSION_SIZE : Nat := 1
def ID_DESC_SIZE : Nat := 1
def MAX_SPEED_DESC_SIZE : Nat := 4
def STRING_DESC_STRING_SIZE : Nat := 255
def PROP_DESC_VALUE_SIZE : Nat := 255
def BUNDLE_DESC_CLASS_SIZE : Nat := 1
def CPORT_ID_DESC_SIZE : Nat := 2
def CPORT_DESC_PROTOCOL_SIZE : Nat := 1

/-! The descriptor data model. -/

def GB_VERSION_MAJOR : Int := 0
def GB_VERSION_MINOR : Int := 1

structure ManifestHeader where
  major : Int
  minor : Int
deriving Repr, DecidableEq

/-- Constructor `ManifestHeader.__init__`: rejects any version pair other
than the supported one. -/
def manifestHeaderInit (major minor : Int) : Except PErr ManifestHeader :=
  if major ≠ GB_VERSION_MAJOR ∨ minor ≠ GB_VERSION_MINOR then
    .error (.error ("invalid '[" ++ MNFS_HEADER ++ "]' format version '" ++
      toString major ++ "." ++ toString minor ++ "'(only supports '" ++
      toString GB_VERSION_MAJOR ++ "." ++ toString GB_VERSION_MINOR ++ "')"))
  else .ok ⟨major, minor⟩

def ManifestHeader.str (h : ManifestHeader) : String :=
  "[" ++ MNFS_HEADER ++ "]\n" ++
  "version-major = " ++ toString h.major ++ "\n" ++
  "version-minor = " ++ toString h.minor ++ "\n"

structure InterfaceDescriptor where
  sec : String
  used : Bool
  vsid : Int
  psid : Int
deriving Repr, DecidableEq

def interfaceDescInit (vsid psid : Int) (sec : String) : InterfaceDescriptor :=
  ⟨sec, true, vsid, psid⟩

def InterfaceDescriptor.str (d : InterfaceDescriptor) : String :=
  "[" ++ INTERFACE_DESC ++ "]\n" ++
  "vendor-string-id = " ++ fmtHex d.vsid ++ "\n" ++
  "product-string-id = " ++ fmtHex d.psid ++ "\n"

structure MikrobusDescriptor where
  sec : String
  used : Bool
  pwm : Int
  int : Int
  rx : Int
  tx : Int
  scl : Int
  sda : Int
  mosi : Int
  miso : Int
  sck : Int
  cs : Int
  rst : Int
  an : Int
deriving Repr, DecidableEq

def mikrobusDescInit (pwm _int rx tx scl sda mosi miso sck cs rst an : Int)
    (sec : String) : MikrobusDescriptor :=
  ⟨sec, true, pwm, _int, rx, tx, scl, sda, mosi, miso, sck, cs, rst, an⟩

def MikrobusDescriptor.str (d : MikrobusDescriptor) : String :=
  "[" ++ MIKROBUS_DESC ++ "]\n" ++
  "pwm-state = " ++ fmtHex d.pwm ++ "\n" ++
  "int-state = " ++ fmtHex d.int ++ "\n" ++
  "rx-state = " ++ fmtHex d.rx ++ "\n" ++
  "tx-state = " ++ fmtHex d.tx ++ "\n" ++
  "scl-state = " ++ fmtHex d.scl ++ "\n" ++
  "sda-state = " ++ fmtHex d.sda ++ "\n" ++
  "mosi-state = " ++ fmtHex d.mosi ++ "\n" ++
  "miso-state = " ++ fmtHex d.miso ++ "\n" ++
  "sck-state = " ++ fmtHex d.sck ++ "\n" ++
  "cs-state = " ++ fmtHex d.cs ++ "\n" ++
  "rst-state = " ++ fmtHex d.rst ++ "\n" ++
  "an-state = " ++ fmtHex d.an ++ "\n"

structure StringDescriptor where
  sec : String
  used : Bool
  id_ : Int
  string : String
  parent : Option InterfaceDescriptor
deriving Repr, DecidableEq

/-- Constructor `StringDescriptor.__init__`: a zero id is rejected. -/
def stringDescInit (id_ : Int) (string : String) (sec : String) :
    Except PErr StringDescriptor :=
  if id_ = 0 then
    .error (.error ("invalid id for '[" ++ sec ++ "]' (cannot be 0)"))
  else .ok ⟨sec, false, id_, string, none⟩

def StringDescriptor.str (d : StringDescriptor) : String :=
  (match d.parent with
   | some p =>
     if d.id_ = p.vsid then "; Interface vendor string\n"
     else if d.id_ = p.psid then "; Interface product string\n"
     else ""
   | none => "") ++
  "[" ++ STRING_DESC ++ " " ++ fmtHex d.id_ ++ "]\n" ++
  "string = " ++ d.string ++ "\n"

/-- The `BundleDescriptor.bundle_class` lookup table. -/
def bundle_class (c : Int) : Option String :=
  if c = 0x00 then some "Control"
  else if c = 0x01 then some "AP"
  else if c = 0x05 then some "HID"
  else if c = 0x08 then some "Power Supply"
  else if c = 0x0a then some "Bridged PHY"
  else if c = 0x0c then some "Display"
  else if c = 0x0d then some "Camera"
  else if c = 0x0e then some "Sensor"
  else if c = 0x0f then some "Lights"
  else if c = 0x10 then some "Vibrator"
  else if c = 0x11 then some "Loopback"
  else if c = 0x12 then some "Audio"
  else if c = 0x14 then some "SVC"
  else if c = 0x15 then some "Firmware"
  else if c = 0xfe then some "Raw"
  else if c = 0xff then some "Vendor Specific"
  else none

structure BundleDescriptor where
  sec : String
  used : Bool
  id_ : Int
  class_ : Int
  cports : List Int
deriving Repr, DecidableEq

/-- Constructor `BundleDescriptor.__init__`, threading the class-level
`bundle_id` counter explicitly. A zero id requires class 0; a non-zero id
differing from the counter reaches `warnings.warn`, and since the module
never imports `warnings` this raises `NameError` (and the counter is not
advanced on that path). -/
def bundleDescInit (id_ class_ : Int) (sec : String) (bundle_id : Int) :
    Except PErr (BundleDescriptor × Int) :=
  if id_ = 0 ∧ class_ ≠ 0 then
    .error (.error ("invalid class for '[" ++ sec ++
      "]' (should be a 'Control' bundle)"))
  else if id_ ≠ 0 then
    if id_ ≠ bundle_id then
      .error (.nameError "name 'warnings' is not defined")
    else
      .ok (⟨sec, false, id_, class_, []⟩, bundle_id + 1)
  else
    .ok (⟨sec, false, id_, class_, []⟩, bundle_id)

def BundleDescriptor.class_name (d : BundleDescriptor) : String :=
  (bundle_class d.class_).getD "Reserved"

def BundleDescriptor.str (d : BundleDescriptor) : String :=
  "; '" ++ d.class_name ++ "' class on Bundle " ++ toString d.id_ ++ "\n" ++
  "[" ++ BUNDLE_DESC ++ " " ++ fmtHex d.id_ ++ "]\n" ++
  "class = " ++ fmtHex d.class_ ++ "\n"

/-- The `CPortDescriptor.cport_protocol` lookup table. -/
def cport_protocol (p : Int) : Option (String × Int) :=
  if p = 0x00 then some ("Control", 0x00)
  else if p = 0x01 then some ("AP", 0x01)
  else if p = 0x02 then some ("GPIO", 0x0a)
  else if p = 0x03 then some ("I2C", 0x0a)
  else if p = 0x04 then some ("UART", 0x0a)
  else if p = 0x05 then some ("HID", 0x05)
  else if p = 0x06 then some ("USB", 0x0a)
  else if p = 0x07 then some ("SDIO", 0x0a)
  else if p = 0x08 then some ("Power Supply", 0x08)
  else if p = 0x09 then some ("PWM", 0x0a)
  else if p = 0x0b then some ("SPI", 0x0a)
  else if p = 0x0c then some ("Display", 0x0c)
  else if p = 0x0d then some ("Camera Management", 0x0d)
  else if p = 0x0e then some ("Sensor", 0x0e)
  else if p = 0x0f then some ("Lights", 0x0f)
  else if p = 0x10 then some ("Vibrator", 0x10)
  else if p = 0x11 then some ("Loopback", 0x11)
  else if p = 0x12 then some ("Audio Management", 0x12)
  else if p = 0x13 then some ("Audio Data", 0x12)
  else if p = 0x14 then some ("SVC", 0x14)
  else if p = 0x15 then some ("Firmware", 0x15)
  else if p = 0x16 then some ("Camera Data", 0x0d)
  else if p = 0xfe then some ("Raw", 0xfe)
  else if p = 0xff then some ("Vendor Specific", 0xff)
  else none

structure CPortDescriptor where
  sec : String
  used : Bool
  id_ : Int
  bundle : Int
  protocol : Int
deriving Repr, DecidableEq

/-- Constructor `CPortDescriptor.__init__`: a zero id requires protocol 0. -/
def cportDescInit (id_ bundle protocol : Int) (sec : String) :
    Except PErr CPortDescriptor :=
  if id_ = 0 ∧ protocol ≠ 0 then
    .error (.error ("invalid protocol for '[" ++ sec ++
      "]' (should be a 'Control' CPort)"))
  else .ok ⟨sec, true, id_, bundle, protocol⟩

def CPortDescriptor.protocol_name (d : CPortDescriptor) : String :=
  ((cport_protocol d.protocol).map Prod.fst).getD "Reserved"

def CPortDescriptor.str (d : CPortDescriptor) : String :=
  "; '" ++ d.protocol_name ++ "' protocol on CPort " ++ toString d.id_ ++ "\n" ++
  "[" ++ CPORT_DESC ++ " " ++ fmtHex d.id_ ++ "]\n" ++
  "bundle = " ++ fmtHex d.bundle ++ "\n" ++
  "protocol = " ++ fmtHex d.protocol ++ "\n"

/-- The `PropertyDescriptor.PROP_VALUE_SIZE` table: byte width of a property
value element for each type tag. -/
def PROP_VALUE_SIZE (t : Int) : Option Nat :=
  if t = 0 then some 1
  else if t = 1 then some 1
  else if t = 2 then some 1
  else if t = 3 then some 1
  else if t = 4 then some 2
  else if t = 5 then some 4
  else if t = 6 then some 8
  else if t = 7 then some 1
  else if t = 8 then some 1
  else none

structure PropertyDescriptor where
  sec : String
  used : Bool
  id_ : Int
  name_stringid : Int
  typ : Int
  value : List Int
  parent : Option InterfaceDescriptor
deriving Repr, DecidableEq

/-- Constructor `PropertyDescriptor.__init__`: a zero id is rejected. -/
def propertyDescInit (id_ name_stringid typ : Int) (value : List Int)
    (sec : String) : Except PErr PropertyDescriptor :=
  if id_ = 0 then
    .error (.error ("invalid id for '[" ++ sec ++ "]' (cannot be 0)"))
  else .ok ⟨sec, false, id_, name_stringid, typ, value, none⟩

def PropertyDescriptor.str (d : PropertyDescriptor) : String :=
  "[" ++ PROPERTY_DESC ++ " " ++ fmtHex d.id_ ++ "]\n" ++
  "name-string-id = " ++ toString d.name_stringid ++ "\n" ++
  "type = " ++ toString d.typ ++ "\n" ++
  "value = <" ++ joinSpace d.value ++ ">\n"

structure DeviceDescriptor where
  sec : String
  used : Bool
  id_ : Int
  driver_string_id : Int
  protocol : Int
  reg : Int
  irq : Int
  irq_type : Int
  max_speed_hz : Int
  mode : Int
  prop_link : Int
  gpio_link : Int
  reg_link : Int
  clock_link : Int
deriving Repr, DecidableEq

/-- Constructor `DeviceDescriptor.__init__`, with the `props` list of the
call site spelled out positionally (props[0] … props[10]). -/
def deviceDescInit (id_ driver_string_id protocol reg irq irq_type
    max_speed_hz mode prop_link gpio_link reg_link clock_link : Int)
    (sec : String) : DeviceDescriptor :=
  ⟨sec, false, id_, driver_string_id, protocol, reg, irq, irq_type,
    max_speed_hz, mode, prop_link, gpio_link, reg_link, clock_link⟩

def DeviceDescriptor.str (d : DeviceDescriptor) : String :=
  "[" ++ DEVICE_DESC ++ " " ++ fmtHex d.id_ ++ "]\n" ++
  "driver-string-id = " ++ fmtHex d.driver_string_id ++ "\n" ++
  "protocol = " ++ fmtHex d.protocol ++ "\n" ++
  "reg = " ++ fmtHex d.reg ++ "\n" ++
  "irq = " ++ fmtHex d.irq ++ "\n" ++
  "irq-type = " ++ fmtHex d.irq_type ++ "\n" ++
  "max-speed-hz = " ++ fmtHex d.max_speed_hz ++ "\n" ++
  "mode = " ++ fmtHex d.mode ++ "\n" ++
  "prop-link = " ++ fmtHex d.prop_link ++ "\n" ++
  "gpio-link = " ++ fmtHex d.gpio_link ++ "\n" ++
  "reg-link = " ++ fmtHex d.reg_link ++ "\n" ++
  "clock-link = " ++ fmtHex d.clock_link ++ "\n"

/-! The Manifest aggregate. -/

/-- One descriptor of any kind, for the `Manifest.descriptors` list. -/
inductive AnyDesc where
  | interfaceD (d : InterfaceDescriptor)
  | mikrobusD (d : MikrobusDescriptor)
  | stringD (d : StringDescriptor)
  | propertyD (d : PropertyDescriptor)
  | deviceD (d : DeviceDescriptor)
  | bundleD (d : BundleDescriptor)
  | cportD (d : CPortDescriptor)
deriving Repr, DecidableEq

structure Manifest where
  header : Option ManifestHeader
  descriptors : List AnyDesc
  string_descs : List (Int × StringDescriptor)
  device_descs : List (Int × DeviceDescriptor)
  property_descs : List (Int × PropertyDescriptor)
  interface_desc : Option InterfaceDescriptor
  mikrobus_desc : Option MikrobusDescriptor
  bundle_descs : List (Int × BundleDescriptor)
  cport_descs : List (Int × CPortDescriptor)
deriving Repr, DecidableEq

/-- `Manifest.__init__`: the empty manifest. -/
def Manifest.init : Manifest :=
  ⟨none, [], [], [], [], none, none, [], []⟩

def Manifest.add_header (m : Manifest) (hdr : ManifestHeader) : Manifest :=
  { m with header := some hdr }

/-- `Manifest.add_interface_desc`: the guarding `assert` evaluates its
message `"multiple instances of '{}'".format(self.instances.title)` only
when it fires, and `Manifest` has no attribute `instances`, so a second
interface raises `AttributeError` rather than an `Error`. -/
def Manifest.add_interface_desc (m : Manifest) (d : InterfaceDescriptor) :
    Except PErr Manifest :=
  match m.interface_desc with
  | some _ => .error (.attributeError "'Manifest' object has no attribute 'instances'")
  | none => .ok { m with interface_desc := some d,
                         descriptors := m.descriptors ++ [.interfaceD d] }

def Manifest.add_mikrobus_desc (m : Manifest) (d : MikrobusDescriptor) : Manifest :=
  { m with mikrobus_desc := some d,
           descriptors := m.descriptors ++ [.mikrobusD d] }

/-- `Manifest.__add_desc_dict`: insert into a per-kind id map, failing on a
duplicate id with the two descriptors rendered into the message. -/
def addDescDict {α : Type} (dict : List (Int × α)) (id_ : Int) (d : α)
    (render : α → String) : Except PErr (List (Int × α)) :=
  match dict.lookup id_ with
  | some old => .error (.error ("duplicated 'id' for descriptors '" ++
      render d ++ "' and '" ++ render old ++ "'"))
  | none => .ok (dict ++ [(id_, d)])

def Manifest.add_string_desc (m : Manifest) (d : StringDescriptor) :
    Except PErr Manifest := do
  let dict ← addDescDict m.string_descs d.id_ d StringDescriptor.str
  pure { m with string_descs := dict,
                descriptors := m.descriptors ++ [.stringD d] }

def Manifest.add_property_desc (m : Manifest) (d : PropertyDescriptor) :
    Except PErr Manifest := do
  let dict ← addDescDict m.property_descs d.id_ d PropertyDescriptor.str
  pure { m with property_descs := dict,
                descriptors := m.descriptors ++ [.propertyD d] }

def Manifest.add_device_desc (m : Manifest) (d : DeviceDescriptor) :
    Except PErr Manifest := do
  let dict ← addDescDict m.device_descs d.id_ d DeviceDescriptor.str
  pure { m with device_descs := dict,
                descriptors := m.descriptors ++ [.deviceD d] }

def Manifest.add_bundle_desc (m : Manifest) (d : BundleDescriptor) :
    Except PErr Manifest := do
  let dict ← addDescDict m.bundle_descs d.id_ d BundleDescriptor.str
  pure { m with bundle_descs := dict,
                descriptors := m.descriptors ++ [.bundleD d] }

def Manifest.add_cport_desc (m : Manifest) (d : CPortDescriptor) :
    Except PErr Manifest := do
  let dict ← addDescDict m.cport_descs d.id_ d CPortDescriptor.str
  pure { m with cport_descs := dict,
                descriptors := m.descriptors ++ [.cportD d] }

/-- `Manifest.__str__`: header, interface, optional mikrobus block, then
device, property, string, bundle and cport blocks sorted by id.
`"{}".format(None)` renders as the text `None`. -/
def Manifest.str (m : Manifest) : String :=
  let r := (match m.header with | none => "None" | some h => h.str)
  let r := r ++ "\n" ++
    (match m.interface_desc with | none => "None" | some d => d.str)
  let r := match m.mikrobus_desc with | none => r | some d => r ++ "\n" ++ d.str
  let r := (sortPairs m.device_descs).foldl (fun acc p => acc ++ "\n" ++ p.2.str) r
  let r := (sortPairs m.property_descs).foldl (fun acc p => acc ++ "\n" ++ p.2.str) r
  let r := (sortPairs m.string_descs).foldl (fun acc p => acc ++ "\n" ++ p.2.str) r
  let r := (sortPairs m.bundle_descs).foldl (fun acc p => acc ++ "\n" ++ p.2.str) r
  let r := (sortPairs m.cport_descs).foldl (fun acc p => acc ++ "\n" ++ p.2.str) r
  r

/-! Field accessors of `MnfsParser`. -/

/-- `MnfsParser.__check_int`: byte-width range check, raising `ValueError`
(here: the error message that the callers embed or propagate). -/
def checkInt (int_val : Int) (num_bytes : Nat) : Except String Int :=
  let min_ : Int := 0
  let max_ : Int := 2 ^ (8 * num_bytes) - 1
  if int_val < min_ ∨ int_val > max_ then
    .error ("out of range ([" ++ toString min_ ++ ":" ++ toString max_ ++ "])")
  else .ok int_val

/-- `MnfsParser.__parse_id`: the second whitespace-separated token of the
section header, unquoted, parsed as a base-0 integer and range checked. -/
def parseId (sec : String) (num_bytes : Nat) : Except PErr Int :=
  match (splitPy sec).get? 1 with
  | none => .error (.error ("missing id value in '[" ++ sec ++ "]'"))
  | some tok0 =>
    let tok := stripQuotes tok0
    match pyInt0 tok with
    | none => .error (.error ("invalid id value in '[" ++ sec ++
        "]': invalid literal for int() with base 0: " ++ pyRepr tok))
    | some v =>
      match checkInt v num_bytes with
      | .error e => .error (.error ("invalid id value in '[" ++ sec ++ "]': " ++ e))
      | .ok v => .ok v

/-- `MnfsParser.__get_option`: option lookup, missing-field error. -/
def getOption (opts : List (String × String)) (sec option_name : String) :
    Except PErr String :=
  match opts.lookup option_name with
  | some v => .ok v
  | none => .error (.error ("missing field '" ++ option_name ++ "' in '[" ++
      sec ++ "]'"))

/-- `MnfsParser.__check_option`: presence test, never raising. -/
def checkOption (opts : List (String × String)) (option_name : String) : Bool :=
  (opts.lookup option_name).isSome

/-- `MnfsParser.__get_int_option`: fetch, parse base-0, range check;
`ValueError` from either step is wrapped into an `Error`. -/
def getIntOption (opts : List (String × String)) (sec option_name : String)
    (num_bytes : Nat) : Except PErr Int := do
  let str_opt ← getOption opts sec option_name
  match pyInt0 str_opt with
  | none => .error (.error ("invalid value '" ++ str_opt ++ "' for field '" ++
      option_name ++ "' in '[" ++ sec ++
      "]': invalid literal for int() with base 0: " ++ pyRepr str_opt))
  | some v =>
    match checkInt v num_bytes with
    | .error e => .error (.error ("invalid value '" ++ str_opt ++ "' for field '" ++
        option_name ++ "' in '[" ++ sec ++ "]': " ++ e))
    | .ok v => .ok v

/-- `MnfsParser.__get_str_option`: fetch with a maximum length. -/
def getStrOption (opts : List (String × String)) (sec option_name : String)
    (max_ : Nat) : Except PErr String := do
  let str_opt ← getOption opts sec option_name
  if str_opt.length > max_ then
    .error (.error ("string '" ++ str_opt ++ "' for field '" ++ option_name ++
      "' in '[" ++ sec ++ "]' is too long (maximum is " ++ toString max_ ++ ")"))
  else .ok str_opt

/-- Element conversion step of `__get_arr_option`: `list(map(int, ...))`,
where a malformed token raises an uncaught `ValueError`. -/
def parseArrInts : List String → Except PErr (List Int)
  | [] => .ok []
  | t :: rest =>
    match pyInt10 t with
    | none => .error (.valueError ("invalid literal for int() with base 10: " ++
        pyRepr t))
    | some v => do
      let vs ← parseArrInts rest
      pure (v :: vs)

/-- Per-element width check of `__get_arr_option`: `__check_int` is called
outside any handler here, so a range failure escapes as a `ValueError`, and
an unknown type tag hits the width table as a `KeyError`. -/
def checkArrVals : List Int → Int → Except PErr Unit
  | [], _ => .ok ()
  | v :: rest, typ =>
    match PROP_VALUE_SIZE typ with
    | none => .error .keyError
    | some w =>
      match checkInt v w with
      | .error e => .error (.valueError e)
      | .ok _ => checkArrVals rest typ

/-- `MnfsParser.__get_arr_option`: angle-bracketed whitespace-separated
integer list with a total length bound and per-element width checks. -/
def getArrOption (opts : List (String × String)) (sec option_name : String)
    (max_ : Nat) (typ : Int) : Except PErr (List Int) := do
  let arr_opt ← getOption opts sec option_name
  if arr_opt.length > max_ then
    .error (.error ("arr '" ++ arr_opt ++ "' for field '" ++ option_name ++
      "' in '[" ++ sec ++ "]' is too long (maximum is " ++ toString max_ ++ ")"))
  else
    match h : arr_opt.data with
    | [] => .error .indexError
    | c :: rest =>
      if ¬(c = '<' ∧ (c :: rest).getLast (by simp) = '>') then
        .error (.error ("arr '" ++ arr_opt ++ "' for field '" ++ option_name ++
          "' in '[" ++ sec ++ "]' does not start with < or end with >"))
      else do
        let val ← parseArrInts ((splitWsChars ((c :: rest).drop 1).dropLast).map String.mk)
        let _ ← checkArrVals val typ
        pure val

/-! The configparser reading model: sections in source order, each an
ordered list of options, with the strict duplicate checks of Python 3. -/

structure Sect where
  name : String
  opts : List (String × String)
deriving Repr, DecidableEq

/-- ASCII lowering of option names (`optionxform`). -/
def asciiLower (s : String) : String :=
  String.mk (s.data.map (fun c =>
    if 'A' ≤ c ∧ c ≤ 'Z' then Char.ofNat (c.toNat + 32) else c))

/-- Section header of a stripped line: text between `[` and the first `]`,
when nonempty. -/
def sectHeaderOf (stripped : String) : Option String :=
  match stripped.data with
  | '[' :: rest =>
    let inner := rest.takeWhile (· ≠ ']')
    if rest.contains ']' ∧ inner ≠ [] then some (String.mk inner) else none
  | _ => none

/-- Index of the first `=` or `:` delimiter of an option line. -/
def findDelim : List Char → Option Nat
  | [] => none
  | c :: rest =>
    if c = '=' ∨ c = ':' then some 0
    else (findDelim rest).map (· + 1)

structure IniState where
  done : List Sect
  cur : Option Sect
  lastOpt : Option String
deriving Repr, DecidableEq

/-- Close the current section and collect all sections in source order. -/
def iniFlush (st : IniState) : List Sect :=
  match st.cur with
  | none => st.done
  | some s => st.done ++ [s]

/-- Append a continuation fragment to the most recent option's value. -/
def appendToLast (opts : List (String × String)) (key frag : String) :
    List (String × String) :=
  opts.map (fun p => if p.1 = key then (p.1, p.2 ++ "\n" ++ frag) else p)

/-- One line of the configparser reading loop: blank and comment lines are
skipped, an indented line continues the previous value, a bracketed line
opens a section (checked against the already-seen names), anything else
must be a delimited option line inside a section. -/
def iniLine (st : IniState) (line : String) : Except PErr IniState :=
  let stripped := trimPy line
  if stripped = "" then .ok st
  else if stripped.data.head? = some ';' ∨ stripped.data.head? = some '#' then .ok st
  else if (line.data.head?.map isWs).getD false ∧ st.lastOpt.isSome ∧ st.cur.isSome then
    match st.cur, st.lastOpt with
    | some s, some key =>
      .ok { st with cur := some ⟨s.name, appendToLast s.opts key stripped⟩ }
    | _, _ => .ok st
  else
    match sectHeaderOf stripped with
    | some name =>
      if name = "DEFAULT" then
        .ok { done := iniFlush st, cur := some ⟨name, []⟩, lastOpt := none }
      else if ((iniFlush st).map Sect.name).contains name then
        .error (.duplicateSectionError name)
      else
        .ok { done := iniFlush st, cur := some ⟨name, []⟩, lastOpt := none }
    | none =>
      match st.cur with
      | none => .error .missingSectionHeaderError
      | some s =>
        match findDelim stripped.data with
        | none => .error (.parsingError line)
        | some i =>
          let key := asciiLower (trimPy (String.mk (stripped.data.take i)))
          let val := trimPy (String.mk (stripped.data.drop (i + 1)))
          if (s.opts.map Prod.fst).contains key then
            .error (.duplicateOptionError s.name key)
          else
            .ok { st with cur := some ⟨s.name, s.opts ++ [(key, val)]⟩,
                          lastOpt := some key }

/-- Run the reading loop over all lines. -/
def iniLines : List String → IniState → Except PErr IniState
  | [], st => .ok st
  | l :: rest, st => do
    let st' ← iniLine st l
    iniLines rest st'

/-- Model of `ConfigParser.read_file` followed by `sections()`: the ordered
section list of a document (the DEFAULT section is not listed). -/
def iniRead (txt : String) : Except PErr (List Sect) := do
  let st ← iniLines (splitLines txt) ⟨[], none, none⟩
  pure ((iniFlush st).filter (fun s => s.name ≠ "DEFAULT"))

/-! The per-section builders of `MnfsParser.parse_file`. -/

def parseHeaderSection (sec : String) (opts : List (String × String)) :
    Except PErr ManifestHeader := do
  let vmaj ← getIntOption opts sec MNFS_HEADER_VMAJ MNFS_HEADER_VERSION_SIZE
  let vmin ← getIntOption opts sec MNFS_HEADER_VMIN MNFS_HEADER_VERSION_SIZE
  manifestHeaderInit vmaj vmin

def parseInterfaceSection (sec : String) (opts : List (String × String)) :
    Except PErr InterfaceDescriptor := do
  let vsid ← getIntOption opts sec INTERFACE_DESC_VSID ID_DESC_SIZE
  let psid ← getIntOption opts sec INTERFACE_DESC_PSID ID_DESC_SIZE
  pure (interfaceDescInit vsid psid sec)

def parseMikrobusSection (sec : String) (opts : List (String × String)) :
    Except PErr MikrobusDescriptor := do
  let pwm ← getIntOption opts sec MNFS_MIKROBUS_PWM_STATE ID_DESC_SIZE
  let _int ← getIntOption opts sec MNFS_MIKROBUS_INT_STATE ID_DESC_SIZE
  let rx ← getIntOption opts sec MNFS_MIKROBUS_RX_STATE ID_DESC_SIZE
  let tx ← getIntOption opts sec MNFS_MIKROBUS_TX_STATE ID_DESC_SIZE
  let scl ← getIntOption opts sec MNFS_MIKROBUS_SCL_STATE ID_DESC_SIZE
  let sda ← getIntOption opts sec MNFS_MIKROBUS_SDA_STATE ID_DESC_SIZE
  let mosi ← getIntOption opts sec MNFS_MIKROBUS_MOSI_STATE ID_DESC_SIZE
  let miso ← getIntOption opts sec MNFS_MIKROBUS_MISO_STATE ID_DESC_SIZE
  let sck ← getIntOption opts sec MNFS_MIKROBUS_SCK_STATE ID_DESC_SIZE
  let cs ← getIntOption opts sec MNFS_MIKROBUS_CS_STATE ID_DESC_SIZE
  let rst ← getIntOption opts sec MNFS_MIKROBUS_RST_STATE ID_DESC_SIZE
  let an ← getIntOption opts sec MNFS_MIKROBUS_AN_STATE ID_DESC_SIZE
  pure (mikrobusDescInit pwm _int rx tx scl sda mosi miso sck cs rst an sec)

def parseStringSection (sec : String) (opts : List (String × String)) :
    Except PErr StringDescriptor := do
  let id_ ← parseId sec ID_DESC_SIZE
  let str_ ← getStrOption opts sec STRING_DESC_STRING STRING_DESC_STRING_SIZE
  stringDescInit id_ str_ sec

def parsePropertySection (sec : String) (opts : List (String × String)) :
    Except PErr PropertyDescriptor := do
  let id_ ← parseId sec ID_DESC_SIZE
  let name_stringid ← getIntOption opts sec PROPERTY_DESC_NAME_STRING_ID ID_DESC_SIZE
  let typ ← getIntOption opts sec PROPERTY_DESC_TYPE ID_DESC_SIZE
  let value ← getArrOption opts sec PROPERTY_DESC_VALUE PROP_DESC_VALUE_SIZE typ
  propertyDescInit id_ name_stringid typ value sec

def parseBundleSection (sec : String) (opts : List (String × String))
    (bundle_id : Int) : Except PErr (BundleDescriptor × Int) := do
  let id_ ← parseId sec ID_DESC_SIZE
  let class_ ← getIntOption opts sec BUNDLE_DESC_CLASS BUNDLE_DESC_CLASS_SIZE
  bundleDescInit id_ class_ sec bundle_id

def parseCPortSection (sec : String) (opts : List (String × String)) :
    Except PErr CPortDescriptor := do
  let id_ ← parseId sec CPORT_ID_DESC_SIZE
  let bundle ← getIntOption opts sec CPORT_DESC_BUNDLE ID_DESC_SIZE
  let protocol ← getIntOption opts sec CPORT_DESC_PROTOCOL CPORT_DESC_PROTOCOL_SIZE
  cportDescInit id_ bundle protocol sec

/-- The SPI conditional of the device branch: protocol 11 requires
`max-speed-hz` (4 bytes) and `mode` (1 byte); any other protocol defaults
both to 0. -/
def deviceSpiFields (protocol : Int) (opts : List (String × String))
    (sec : String) : Except PErr (Int × Int) :=
  if protocol = 11 then do
    let maxspeedhz ← getIntOption opts sec DEVICE_DESC_MAX_SPEED_HZ MAX_SPEED_DESC_SIZE
    let mode ← getIntOption opts sec DEVICE_DESC_MODE ID_DESC_SIZE
    pure (maxspeedhz, mode)
  else pure ((0 : Int), (0 : Int))

/-- The UART conditional of the device branch: `reg` is required unless the
protocol is 4, in which case it defaults to 0. -/
def deviceRegField (protocol : Int) (opts : List (String × String))
    (sec : String) : Except PErr Int :=
  if protocol ≠ 4 then getIntOption opts sec DEVICE_DESC_REG ID_DESC_SIZE
  else pure 0

/-- The irq conditional of the device branch: a present `irq` option
requires the `irq`/`irq-type` pair; an absent one defaults both to 0. -/
def deviceIrqFields (opts : List (String × String)) (sec : String) :
    Except PErr (Int × Int) :=
  if checkOption opts DEVICE_DESC_IRQ then do
    let irq ← getIntOption opts sec DEVICE_DESC_IRQ ID_DESC_SIZE
    let irq_type ← getIntOption opts sec DEVICE_DESC_IRQ_TYPE ID_DESC_SIZE
    pure (irq, irq_type)
  else pure ((0 : Int), (0 : Int))

/-- An optional 1-byte link field of the device branch, defaulting to 0. -/
def deviceLinkField (opts : List (String × String)) (sec name : String) :
    Except PErr Int :=
  if checkOption opts name then getIntOption opts sec name ID_DESC_SIZE
  else pure 0

/-- The device-descriptor branch of `parse_file`, with its conditional
fields: SPI (protocol 11) requires `max-speed-hz` and `mode`; `reg` is
required unless the protocol is UART (4); an `irq` option requires the
`irq`/`irq-type` pair; the four link fields are independently optional. -/
def parseDeviceSection (sec : String) (opts : List (String × String)) :
    Except PErr DeviceDescriptor := do
  let id_ ← parseId sec ID_DESC_SIZE
  let driverstr ← getIntOption opts sec DEVICE_DESC_DRIVER_STRING_ID ID_DESC_SIZE
  let protocol ← getIntOption opts sec DEVICE_DESC_PROTOCOL ID_DESC_SIZE
  let spi ← deviceSpiFields protocol opts sec
  let reg ← deviceRegField protocol opts sec
  let irqp ← deviceIrqFields opts sec
  let prop_link ← deviceLinkField opts sec DEVICE_DESC_PROP_LINK
  let gpio_link ← deviceLinkField opts sec DEVICE_DESC_GPIO_LINK
  let reg_link ← deviceLinkField opts sec DEVICE_DESC_REG_LINK
  let clock_link ← deviceLinkField opts sec DEVICE_DESC_CLOCK_LINK
  pure (deviceDescInit id_ driverstr protocol reg irqp.1 irqp.2
    spi.1 spi.2 prop_link gpio_link reg_link clock_link sec)

/-- Dispatch on one section of `parse_file`: the whitespace check, the three
exact-name sections, then kind-plus-id sections by first token, and the
unrecognised-section error. -/
def parseOneSection (s : Sect) (m : Manifest) (bundle_id : Int) :
    Except PErr (Manifest × Int) :=
  if s.name ≠ trimPy s.name then
    .error (.error ("invalid spaces in '[" ++ s.name ++ "]'"))
  else if s.name = MNFS_HEADER then do
    let hdr ← parseHeaderSection s.name s.opts
    pure (m.add_header hdr, bundle_id)
  else if s.name = INTERFACE_DESC then do
    let d ← parseInterfaceSection s.name s.opts
    let m' ← m.add_interface_desc d
    pure (m', bundle_id)
  else if s.name = MIKROBUS_DESC then do
    let d ← parseMikrobusSection s.name s.opts
    pure (m.add_mikrobus_desc d, bundle_id)
  else
    match splitPy s.name with
    | [] => .error .indexError
    | kind :: _ =>
      if kind = STRING_DESC then do
        let d ← parseStringSection s.name s.opts
        let m' ← m.add_string_desc d
        pure (m', bundle_id)
      else if kind = PROPERTY_DESC then do
        let d ← parsePropertySection s.name s.opts
        let m' ← m.add_property_desc d
        pure (m', bundle_id)
      else if kind = BUNDLE_DESC then do
        let (d, bid') ← parseBundleSection s.name s.opts bundle_id
        let m' ← m.add_bundle_desc d
        pure (m', bid')
      else if kind = CPORT_DESC then do
        let d ← parseCPortSection s.name s.opts
        let m' ← m.add_cport_desc d
        pure (m', bundle_id)
      else if kind = DEVICE_DESC then do
        let d ← parseDeviceSection s.name s.opts
        let m' ← m.add_device_desc d
        pure (m', bundle_id)
      else
        .error (.error ("invalid descriptor '[" ++ s.name ++ "]'"))

/-- The section loop of `parse_file`. -/
def parseSections : List Sect → Manifest → Int → Except PErr (Manifest × Int)
  | [], m, bid => .ok (m, bid)
  | s :: rest, m, bid => do
    let (m', bid') ← parseOneSection s m bid
    parseSections rest m' bid'

/-- `MnfsParser.parse_file` on the text of the manifest file. The second
argument is the process-wide `BundleDescriptor.bundle_id` counter (1 in a
fresh process), threaded in and out explicitly. -/
def parse_file (txt : String) (bundle_id : Int) :
    Except PErr (Manifest × Int) := do
  let sects ← iniRead txt
  parseSections sects Manifest.init bundle_id

/-- Emit followed by a re-parse in the same process: the round-trip whose
stability the specification asserts. -/
def roundTrip (txt : String) (bundle_id : Int) :
    Except PErr (Manifest × Int) := do
  let (m, bid) ← parse_file txt bundle_id
  parse_file m.str bid

/-! Generic lemmas about the `Except` plumbing. -/

theorem exceptBindOk {ε α β : Type} (a : α) (f : α → Except ε β) :
    (Except.ok a >>= f) = f a := rfl

theorem exceptBindErr {ε α β : Type} (e : ε) (f : α → Except ε β) :
    ((Except.error e : Except ε α) >>= f) = Except.error e := rfl

theorem except_bind_ok_elim {ε α β : Type} {x : Except ε α} {f : α → Except ε β}
    {b : β} (h : (x >>= f) = .ok b) : ∃ a, x = .ok a ∧ f a = .ok b := by
  cases x with
  | error e => rw [exceptBindErr] at h; cases h
  | ok a => exact ⟨a, rfl, h⟩

/-- Test that a parse outcome is the repository's duplicate-id `Error`. -/
def isDupIdError {α : Type} (r : Except PErr α) : Bool :=
  match r with
  | .error (.error m) => List.isPrefixOf ("duplicated 'id'").data m.data
  | _ => false

/-! Concrete manifest documents used by the claims. -/

def mnfsDocHeaderBad : String :=
  "[manifest-header]\nversion-major = 1\nversion-minor = 0\n"

def mnfsDocHeaderGood : String :=
  "[manifest-header]\nversion-major = 0\nversion-minor = 1\n"

def mnfsDocArrOutOfRange : String :=
  "[property-descriptor 0x1]\nname-string-id = 1\ntype = 0\nvalue = <256>\n"

def mnfsDocBundleMismatch : String :=
  "[bundle-descriptor 0x2]\nclass = 0xa\n"

def mnfsDocRoundTrip : String :=
  "[manifest-header]\nversion-major = 0\nversion-minor = 1\n\n" ++
  "[interface-descriptor]\nvendor-string-id = 0x1\nproduct-string-id = 0x2\n\n" ++
  "[bundle-descriptor 0x1]\nclass = 0xa\n"

def mnfsDocBothSections : String :=
  "[manifest-header]\nversion-major = 0\nversion-minor = 1\n\n" ++
  "[interface-descriptor]\nvendor-string-id = 0x1\nproduct-string-id = 0x2\n"

def mnfsDocTwoInterfaces : String :=
  "[interface-descriptor]\nvendor-string-id = 0x1\nproduct-string-id = 0x2\n\n" ++
  "[interface-descriptor]\nvendor-string-id = 0x1\nproduct-string-id = 0x2\n"

def mnfsDocBundleId1Class0 : String :=
  "[bundle-descriptor 0x1]\nclass = 0x0\n"

def mnfsDocBundleId0Class1 : String :=
  "[bundle-descriptor 0x0]\nclass = 0x1\n"

def mnfsDocBundleId0Class0 : String :=
  "[bundle-descriptor 0x0]\nclass = 0x0\n"

def mnfsDocDupString : String :=
  "[string-descriptor 0x1]\nstring = a\n\n[string-descriptor 1]\nstring = b\n"

def mnfsDocDupStringSame : String :=
  "[string-descriptor 0x1]\nstring = a\n\n[string-descriptor 0x1]\nstring = b\n"

def mnfsDocDupProperty : String :=
  "[property-descriptor 0x1]\nname-string-id = 1\ntype = 0\nvalue = <1>\n\n" ++
  "[property-descriptor 1]\nname-string-id = 1\ntype = 0\nvalue = <2>\n"

def mnfsDocDupDevice : String :=
  "[device-descriptor 0x1]\ndriver-string-id = 1\nprotocol = 0\nreg = 1\n\n" ++
  "[device-descriptor 1]\ndriver-string-id = 1\nprotocol = 0\nreg = 2\n"

def mnfsDocDupCPort : String :=
  "[cport-descriptor 0x1]\nbundle = 0\nprotocol = 0\n\n" ++
  "[cport-descriptor 1]\nbundle = 0\nprotocol = 0\n"

def mnfsDocDupBundle0 : String :=
  "[bundle-descriptor 0x0]\nclass = 0\n\n[bundle-descriptor 0]\nclass = 0\n"

def mnfsDocDupBundle1 : String :=
  "[bundle-descriptor 0x1]\nclass = 0\n\n[bundle-descriptor 1]\nclass = 0\n"

def mnfsDocSpiNoMaxSpeed : String :=
  "[device-descriptor 0x1]\ndriver-string-id = 0x1\nprotocol = 0xb\nreg = 0x2\n"

def mnfsDocUartNoReg : String :=
  "[device-descriptor 0x1]\ndriver-string-id = 0x1\nprotocol = 0x4\n"

/-- C2 — Every validation failure during `parse_file` raises the single
`Error` kind: refuted by the code. An out-of-range element of a property
value array reaches `__check_int` inside `__get_arr_option`, where no
handler converts the `ValueError`, so the raw `ValueError` escapes
`parse_file` instead of an `Error`. -/
theorem C2_array_element_valueError :
    parse_file mnfsDocArrOutOfRange 1 =
      .error (.valueError "out of range ([0:255])") := by rfl

/-- C4 — A bundle id differing from the expected-next-id counter is claimed
to be a non-fatal warning, but the module never imports `warnings`, so the
`warnings.warn` call raises `NameError` and the parse aborts with no model
produced (and the counter is not advanced). -/
theorem C4_bundle_mismatch_nameError :
    parse_file mnfsDocBundleMismatch 1 =
      .error (.nameError "name 'warnings' is not defined") ∧
    bundleDescInit 2 10 "bundle-descriptor 0x2" 1 =
      .error (.nameError "name 'warnings' is not defined") := ⟨by rfl, by rfl⟩

/-- C1 — Round-trip stability: refuted as stated on the code. A valid
manifest holding the bundle with id 1 parses (advancing the process-wide
bundle counter to 2), but re-parsing its own emission `str(m)` in the same
process hits the non-incremental-id path, whose `warnings.warn` raises
`NameError` because `warnings` is never imported. -/
theorem C1_roundtrip_crashes :
    (parse_file mnfsDocRoundTrip 1).isOk = true ∧
    roundTrip mnfsDocRoundTrip 1 =
      .error (.nameError "name 'warnings' is not defined") := ⟨by rfl, by rfl⟩

/-- C5 — Version gate: `ManifestHeader` accepts exactly the pair (0, 1) and
rejects every other pair with a version-mismatch error naming the found and
the required version; at parse level, `version-major = 1, version-minor = 0`
fails with that error and `0 / 1` succeeds. -/
theorem C5_version_gate :
    manifestHeaderInit 0 1 = .ok ⟨0, 1⟩ ∧
    (∀ major minor : Int, ¬(major = 0 ∧ minor = 1) →
      manifestHeaderInit major minor =
        .error (.error ("invalid '[" ++ MNFS_HEADER ++ "]' format version '" ++
          toString major ++ "." ++ toString minor ++ "'(only supports '" ++
          toString GB_VERSION_MAJOR ++ "." ++ toString GB_VERSION_MINOR ++ "')"))) ∧
    parse_file mnfsDocHeaderBad 1 =
      .error (.error "invalid '[manifest-header]' format version '1.0'(only supports '0.1')") ∧
    parse_file mnfsDocHeaderGood 1 =
      .ok (⟨some ⟨0, 1⟩, [], [], [], [], none, none, [], []⟩, 1) := by
  refine ⟨by rfl, ?_, by rfl, by rfl⟩
  intro major minor hne
  unfold manifestHeaderInit
  rw [if_pos]
  unfold GB_VERSION_MAJOR GB_VERSION_MINOR
  by_contra hc
  exact hne ⟨by by_contra h1; exact hc (Or.inl h1), by by_contra h2; exact hc (Or.inr h2)⟩

/-- Witness for C5: the rejected pair (1, 0) of the claim. -/
theorem C5_version_gate_witness :
    manifestHeaderInit 1 0 =
      .error (.error ("invalid '[" ++ MNFS_HEADER ++ "]' format version '" ++
        toString (1 : Int) ++ "." ++ toString (0 : Int) ++ "'(only supports '" ++
        toString GB_VERSION_MAJOR ++ "." ++ toString GB_VERSION_MINOR ++ "')")) :=
  C5_version_gate.2.1 1 0 (by decide)

/-- C6 counterexample — the empty document (no `[manifest-header]`, no
`[interface-descriptor]`) still parses successfully, yielding the empty
manifest with `header = None` and `interface_desc = None`. -/
theorem C6_empty_document_parses :
    parse_file "" 1 = .ok (Manifest.init, 1) ∧
    Manifest.init.header = none ∧
    Manifest.init.interface_desc = none := ⟨by rfl, rfl, rfl⟩

/-- C6 (amended) — `parse_file` does not enforce the presence of a
manifest-header or interface-descriptor section: a document lacking both
parses successfully with those fields unset, while a document containing
both yields a manifest carrying exactly the header and the one interface
descriptor. -/
theorem C6_presence_not_enforced :
    parse_file "" 1 = .ok (Manifest.init, 1) ∧
    Manifest.init.header = none ∧
    Manifest.init.interface_desc = none ∧
    parse_file mnfsDocBothSections 1 =
      .ok (⟨some ⟨0, 1⟩, [.interfaceD ⟨"interface-descriptor", true, 1, 2⟩],
            [], [], [], some ⟨"interface-descriptor", true, 1, 2⟩,
            none, [], []⟩, 1) :=
  ⟨by rfl, rfl, rfl, by rfl⟩

/-- C7 counterexample — a successfully parsed manifest whose bundle has
class code 0 with the non-zero id 1, so the claimed biconditional
(id 0 iff class 0) fails in the class-0-implies-id-0 direction. -/
theorem C7_class_zero_nonzero_id_accepted :
    parse_file mnfsDocBundleId1Class0 1 =
      .ok (⟨none, [.bundleD ⟨"bundle-descriptor 0x1", false, 1, 0, []⟩],
            [], [], [], none, none,
            [(1, ⟨"bundle-descriptor 0x1", false, 1, 0, []⟩)], []⟩, 2) ∧
    ((⟨"bundle-descriptor 0x1", false, 1, 0, []⟩ : BundleDescriptor).id_ = 1 ∧
     (⟨"bundle-descriptor 0x1", false, 1, 0, []⟩ : BundleDescriptor).class_ = 0) :=
  ⟨by rfl, rfl, rfl⟩

/-- C7 (amended) — the reserved-id rule holds as an implication only: a
bundle with id 0 must have class 0 and a cport with id 0 must have
protocol 0 (the converses do not hold); a bundle section with id = 0 and
class = 0x01 fails to parse while id = 0, class = 0x00 succeeds. -/
theorem C7_reserved_id_implication :
    (∀ (class_ : Int) (sec : String) (bid : Int), class_ ≠ 0 →
      bundleDescInit 0 class_ sec bid =
        .error (.error ("invalid class for '[" ++ sec ++
          "]' (should be a 'Control' bundle)"))) ∧
    (∀ (bundle protocol : Int) (sec : String), protocol ≠ 0 →
      cportDescInit 0 bundle protocol sec =
        .error (.error ("invalid protocol for '[" ++ sec ++
          "]' (should be a 'Control' CPort)"))) ∧
    parse_file mnfsDocBundleId0Class1 1 =
      .error (.error "invalid class for '[bundle-descriptor 0x0]' (should be a 'Control' bundle)") ∧
    parse_file mnfsDocBundleId0Class0 1 =
      .ok (⟨none, [.bundleD ⟨"bundle-descriptor 0x0", false, 0, 0, []⟩],
            [], [], [], none, none,
            [(0, ⟨"bundle-descriptor 0x0", false, 0, 0, []⟩)], []⟩, 1) := by
  refine ⟨?_, ?_, by rfl, by rfl⟩
  · intro class_ sec bid hc
    unfold bundleDescInit
    rw [if_pos ⟨rfl, hc⟩]
  · intro bundle protocol sec hp
    unfold cportDescInit
    rw [if_pos ⟨rfl, hp⟩]

/-- Witness for C7: the reserved-id implications at class 1 and protocol 1. -/
theorem C7_reserved_id_implication_witness :
    bundleDescInit 0 1 "b" 1 =
      .error (.error ("invalid class for '[" ++ "b" ++
        "]' (should be a 'Control' bundle)")) ∧
    cportDescInit 0 0 1 "c" =
      .error (.error ("invalid protocol for '[" ++ "c" ++
        "]' (should be a 'Control' CPort)")) :=
  ⟨C7_reserved_id_implication.1 1 "b" 1 (by decide),
   C7_reserved_id_implication.2.1 0 1 "c" (by decide)⟩

/-- C3 counterexample — a document with two `[interface-descriptor]`
sections does not fail with a "multiple instances" error: the strict
configparser read rejects the duplicated section header first, so the
second section is never processed by the manifest code. -/
theorem C3_two_interfaces_duplicate_section :
    parse_file mnfsDocTwoInterfaces 1 =
      .error (.duplicateSectionError "interface-descriptor") := by rfl

/-- C3 (amended) — only one interface descriptor may ever be added to a
Manifest, but a second `add_interface_desc` fails with an `AttributeError`
(the assert's "multiple instances" message expression reads the
nonexistent attribute `instances`), and a document with two
`[interface-descriptor]` sections fails during the configparser read with
a duplicate-section error before the second section is processed. -/
theorem C3_single_interface :
    (∀ (m : Manifest) (d0 d : InterfaceDescriptor), m.interface_desc = some d0 →
      m.add_interface_desc d =
        .error (.attributeError "'Manifest' object has no attribute 'instances'")) ∧
    parse_file mnfsDocTwoInterfaces 1 =
      .error (.duplicateSectionError "interface-descriptor") := by
  refine ⟨?_, by rfl⟩
  intro m d0 d h
  unfold Manifest.add_interface_desc
  rw [h]

/-- Witness for C3: a second interface added to a manifest already holding
one raises the `AttributeError`. -/
theorem C3_single_interface_witness :
    (Manifest.mk none [.interfaceD ⟨"interface-descriptor", true, 1, 2⟩]
        [] [] [] (some ⟨"interface-descriptor", true, 1, 2⟩) none [] []
      ).add_interface_desc ⟨"interface-descriptor", true, 3, 4⟩ =
      .error (.attributeError "'Manifest' object has no attribute 'instances'") :=
  C3_single_interface.1 _ ⟨"interface-descriptor", true, 1, 2⟩ _ rfl

/-- C9 counterexample — two sections of the same kind with the same id in
the same textual form do not produce the duplicate-id `Error`: the strict
configparser read raises its duplicate-section error first. -/
theorem C9_same_form_duplicate_section :
    parse_file mnfsDocDupStringSame 1 =
      .error (.duplicateSectionError "string-descriptor 0x1") := by rfl

/-- C9 (amended) — two sections of the same kind with the same id fail,
but the error kind depends on the case: for string, property, device and
cport kinds (and for bundles with id 0) with textually distinct id tokens
the parse fails with the duplicate-id `Error`; textually identical headers
die earlier in configparser with a duplicate-section error; and duplicate
non-zero bundle ids hit the non-incremental-id `warnings.warn` path first,
raising `NameError`. -/
theorem C9_duplicate_id_by_kind :
    isDupIdError (parse_file mnfsDocDupString 1) = true ∧
    isDupIdError (parse_file mnfsDocDupProperty 1) = true ∧
    isDupIdError (parse_file mnfsDocDupDevice 1) = true ∧
    isDupIdError (parse_file mnfsDocDupCPort 1) = true ∧
    isDupIdError (parse_file mnfsDocDupBundle0 1) = true ∧
    parse_file mnfsDocDupBundle1 1 =
      .error (.nameError "name 'warnings' is not defined") ∧
    parse_file mnfsDocDupStringSame 1 =
      .error (.duplicateSectionError "string-descriptor 0x1") :=
  ⟨by rfl, by rfl, by rfl, by rfl, by rfl, by rfl, by rfl⟩

theorem exceptBindPure {ε α β : Type} (a : α) (f : α → Except ε β) :
    ((pure a : Except ε α) >>= f) = f a := rfl

theorem exceptPureOk {ε α : Type} {a b : α}
    (h : (pure a : Except ε α) = .ok b) : a = b := Except.ok.inj h

/-- A missing option makes `__get_int_option` fail with the missing-field
error of `__get_option`. -/
theorem getIntOption_missing {opts : List (String × String)} {sec name : String}
    {w : Nat} (h : opts.lookup name = none) :
    getIntOption opts sec name w =
      .error (.error ("missing field '" ++ name ++ "' in '[" ++ sec ++ "]'")) := by
  unfold getIntOption getOption
  rw [h]
  rfl

theorem checkOption_of_none {opts : List (String × String)} {name : String}
    (h : opts.lookup name = none) : checkOption opts name = false := by
  unfold checkOption; rw [h]; rfl

theorem checkOption_of_some {opts : List (String × String)} {name v : String}
    (h : opts.lookup name = some v) : checkOption opts name = true := by
  unfold checkOption; rw [h]; rfl

theorem deviceSpiFields_not11 {p : Int} {opts : List (String × String)}
    {sec : String} (h : p ≠ 11) : deviceSpiFields p opts sec = .ok (0, 0) := by
  unfold deviceSpiFields; rw [if_neg h]; rfl

theorem deviceSpiFields_missing_msh {opts : List (String × String)}
    {sec : String} (h : opts.lookup DEVICE_DESC_MAX_SPEED_HZ = none) :
    deviceSpiFields 11 opts sec =
      .error (.error ("missing field '" ++ DEVICE_DESC_MAX_SPEED_HZ ++
        "' in '[" ++ sec ++ "]'")) := by
  unfold deviceSpiFields
  rw [if_pos rfl, getIntOption_missing h, exceptBindErr]

theorem deviceSpiFields_missing_mode {opts : List (String × String)}
    {sec : String} {msh : Int}
    (hmsh : getIntOption opts sec DEVICE_DESC_MAX_SPEED_HZ MAX_SPEED_DESC_SIZE = .ok msh)
    (h : opts.lookup DEVICE_DESC_MODE = none) :
    deviceSpiFields 11 opts sec =
      .error (.error ("missing field '" ++ DEVICE_DESC_MODE ++
        "' in '[" ++ sec ++ "]'")) := by
  unfold deviceSpiFields
  rw [if_pos rfl, hmsh, exceptBindOk, getIntOption_missing h, exceptBindErr]

theorem deviceRegField_uart {opts : List (String × String)} {sec : String} :
    deviceRegField 4 opts sec = .ok 0 := by
  unfold deviceRegField
  rw [if_neg (by decide : ¬((4 : Int) ≠ 4))]
  rfl

theorem deviceRegField_ne4 {p : Int} {opts : List (String × String)}
    {sec : String} (h : p ≠ 4) :
    deviceRegField p opts sec = getIntOption opts sec DEVICE_DESC_REG ID_DESC_SIZE := by
  unfold deviceRegField; rw [if_pos h]

theorem deviceIrqFields_absent {opts : List (String × String)} {sec : String}
    (h : opts.lookup DEVICE_DESC_IRQ = none) :
    deviceIrqFields opts sec = .ok (0, 0) := by
  unfold deviceIrqFields
  rw [checkOption_of_none h, if_neg (by decide : ¬(false = true))]
  rfl

theorem deviceIrqFields_missing_type {opts : List (String × String)}
    {sec : String} {irqv : Int}
    (hpres : checkOption opts DEVICE_DESC_IRQ = true)
    (hirq : getIntOption opts sec DEVICE_DESC_IRQ ID_DESC_SIZE = .ok irqv)
    (h : opts.lookup DEVICE_DESC_IRQ_TYPE = none) :
    deviceIrqFields opts sec =
      .error (.error ("missing field '" ++ DEVICE_DESC_IRQ_TYPE ++
        "' in '[" ++ sec ++ "]'")) := by
  unfold deviceIrqFields
  rw [hpres, if_pos rfl, hirq, exceptBindOk, getIntOption_missing h, exceptBindErr]

/-- C8 — Conditional device-descriptor fields: with protocol 11 (SPI) the
`max-speed-hz` and `mode` options are required (missing ones fail with the
missing-field error) and with any other protocol both default to 0; `reg`
is required unless the protocol is 4 (UART), in which case it defaults to
0; a present `irq` option requires the `irq`/`irq-type` pair, and an
absent one defaults both to 0. The two concrete documents of the claim
behave accordingly. -/
theorem C8_device_conditional_fields :
    (∀ (sec : String) (opts : List (String × String)) (i dr : Int),
      parseId sec ID_DESC_SIZE = .ok i →
      getIntOption opts sec DEVICE_DESC_DRIVER_STRING_ID ID_DESC_SIZE = .ok dr →
      getIntOption opts sec DEVICE_DESC_PROTOCOL ID_DESC_SIZE = .ok 11 →
      opts.lookup DEVICE_DESC_MAX_SPEED_HZ = none →
      parseDeviceSection sec opts =
        .error (.error ("missing field '" ++ DEVICE_DESC_MAX_SPEED_HZ ++
          "' in '[" ++ sec ++ "]'"))) ∧
    (∀ (sec : String) (opts : List (String × String)) (i dr msh : Int),
      parseId sec ID_DESC_SIZE = .ok i →
      getIntOption opts sec DEVICE_DESC_DRIVER_STRING_ID ID_DESC_SIZE = .ok dr →
      getIntOption opts sec DEVICE_DESC_PROTOCOL ID_DESC_SIZE = .ok 11 →
      getIntOption opts sec DEVICE_DESC_MAX_SPEED_HZ MAX_SPEED_DESC_SIZE = .ok msh →
      opts.lookup DEVICE_DESC_MODE = none →
      parseDeviceSection sec opts =
        .error (.error ("missing field '" ++ DEVICE_DESC_MODE ++
          "' in '[" ++ sec ++ "]'"))) ∧
    (∀ (sec : String) (opts : List (String × String)) (p : Int)
      (dev : DeviceDescriptor),
      getIntOption opts sec DEVICE_DESC_PROTOCOL ID_DESC_SIZE = .ok p →
      p ≠ 11 →
      parseDeviceSection sec opts = .ok dev →
      dev.max_speed_hz = 0 ∧ dev.mode = 0) ∧
    (∀ (sec : String) (opts : List (String × String)) (i dr p : Int),
      parseId sec ID_DESC_SIZE = .ok i →
      getIntOption opts sec DEVICE_DESC_DRIVER_STRING_ID ID_DESC_SIZE = .ok dr →
      getIntOption opts sec DEVICE_DESC_PROTOCOL ID_DESC_SIZE = .ok p →
      p ≠ 11 → p ≠ 4 →
      opts.lookup DEVICE_DESC_REG = none →
      parseDeviceSection sec opts =
        .error (.error ("missing field '" ++ DEVICE_DESC_REG ++
          "' in '[" ++ sec ++ "]'"))) ∧
    (∀ (sec : String) (opts : List (String × String)) (dev : DeviceDescriptor),
      getIntOption opts sec DEVICE_DESC_PROTOCOL ID_DESC_SIZE = .ok 4 →
      parseDeviceSection sec opts = .ok dev →
      dev.reg = 0) ∧
    (∀ (sec : String) (opts : List (String × String)) (i dr p r irqv : Int),
      parseId sec ID_DESC_SIZE = .ok i →
      getIntOption opts sec DEVICE_DESC_DRIVER_STRING_ID ID_DESC_SIZE = .ok dr →
      getIntOption opts sec DEVICE_DESC_PROTOCOL ID_DESC_SIZE = .ok p →
      p ≠ 11 → p ≠ 4 →
      getIntOption opts sec DEVICE_DESC_REG ID_DESC_SIZE = .ok r →
      checkOption opts DEVICE_DESC_IRQ = true →
      getIntOption opts sec DEVICE_DESC_IRQ ID_DESC_SIZE = .ok irqv →
      opts.lookup DEVICE_DESC_IRQ_TYPE = none →
      parseDeviceSection sec opts =
        .error (.error ("missing field '" ++ DEVICE_DESC_IRQ_TYPE ++
          "' in '[" ++ sec ++ "]'"))) ∧
    (∀ (sec : String) (opts : List (String × String)) (dev : DeviceDescriptor),
      opts.lookup DEVICE_DESC_IRQ = none →
      parseDeviceSection sec opts = .ok dev →
      dev.irq = 0 ∧ dev.irq_type = 0) ∧
    parse_file mnfsDocSpiNoMaxSpeed 1 =
      .error (.error "missing field 'max-speed-hz' in '[device-descriptor 0x1]'") ∧
    parse_file mnfsDocUartNoReg 1 =
      .ok (⟨none,
            [.deviceD ⟨"device-descriptor 0x1", false, 1, 1, 4, 0, 0, 0, 0, 0, 0, 0, 0, 0⟩],
            [], [(1, ⟨"device-descriptor 0x1", false, 1, 1, 4, 0, 0, 0, 0, 0, 0, 0, 0, 0⟩)],
            [], none, none, [], []⟩, 1) := by
  refine ⟨?_, ?_, ?_, ?_, ?_, ?_, ?_, by rfl, by rfl⟩
  · intro sec opts i dr hid hdr hp hmiss
    unfold parseDeviceSection
    rw [hid, exceptBindOk, hdr, exceptBindOk, hp, exceptBindOk,
      deviceSpiFields_missing_msh hmiss, exceptBindErr]
  · intro sec opts i dr msh hid hdr hp hmsh hmiss
    unfold parseDeviceSection
    rw [hid, exceptBindOk, hdr, exceptBindOk, hp, exceptBindOk,
      deviceSpiFields_missing_mode hmsh hmiss, exceptBindErr]
  · intro sec opts p dev hp hp11 hsucc
    unfold parseDeviceSection at hsucc
    obtain ⟨i, hi, hsucc⟩ := except_bind_ok_elim hsucc
    obtain ⟨dr, hdr, hsucc⟩ := except_bind_ok_elim hsucc
    rw [hp, exceptBindOk] at hsucc
    rw [deviceSpiFields_not11 hp11, exceptBindOk] at hsucc
    obtain ⟨reg, hreg, hsucc⟩ := except_bind_ok_elim hsucc
    obtain ⟨irqp, hirqp, hsucc⟩ := except_bind_ok_elim hsucc
    obtain ⟨pl, hpl, hsucc⟩ := except_bind_ok_elim hsucc
    obtain ⟨gl, hgl, hsucc⟩ := except_bind_ok_elim hsucc
    obtain ⟨rl, hrl, hsucc⟩ := except_bind_ok_elim hsucc
    obtain ⟨cl, hcl, hsucc⟩ := except_bind_ok_elim hsucc
    have hr := exceptPureOk hsucc
    subst hr
    exact ⟨rfl, rfl⟩
  · intro sec opts i dr p hid hdr hp hp11 hp4 hmiss
    unfold parseDeviceSection
    rw [hid, exceptBindOk, hdr, exceptBindOk, hp, exceptBindOk,
      deviceSpiFields_not11 hp11, exceptBindOk,
      deviceRegField_ne4 hp4, getIntOption_missing hmiss, exceptBindErr]
  · intro sec opts dev hp hsucc
    unfold parseDeviceSection at hsucc
    obtain ⟨i, hi, hsucc⟩ := except_bind_ok_elim hsucc
    obtain ⟨dr, hdr, hsucc⟩ := except_bind_ok_elim hsucc
    rw [hp, exceptBindOk] at hsucc
    rw [deviceSpiFields_not11 (by decide : ¬((4 : Int) = 11)), exceptBindOk,
      deviceRegField_uart, exceptBindOk] at hsucc
    obtain ⟨irqp, hirqp, hsucc⟩ := except_bind_ok_elim hsucc
    obtain ⟨pl, hpl, hsucc⟩ := except_bind_ok_elim hsucc
    obtain ⟨gl, hgl, hsucc⟩ := except_bind_ok_elim hsucc
    obtain ⟨rl, hrl, hsucc⟩ := except_bind_ok_elim hsucc
    obtain ⟨cl, hcl, hsucc⟩ := except_bind_ok_elim hsucc
    have hr := exceptPureOk hsucc
    subst hr
    rfl
  · intro sec opts i dr p r irqv hid hdr hp hp11 hp4 hreg hpres hirq hmiss
    unfold parseDeviceSection
    rw [hid, exceptBindOk, hdr, exceptBindOk, hp, exceptBindOk,
      deviceSpiFields_not11 hp11, exceptBindOk,
      deviceRegField_ne4 hp4, hreg, exceptBindOk,
      deviceIrqFields_missing_type hpres hirq hmiss, exceptBindErr]
  · intro sec opts dev hmiss hsucc
    unfold parseDeviceSection at hsucc
    obtain ⟨i, hi, hsucc⟩ := except_bind_ok_elim hsucc
    obtain ⟨dr, hdr, hsucc⟩ := except_bind_ok_elim hsucc
    obtain ⟨p, hp, hsucc⟩ := except_bind_ok_elim hsucc
    obtain ⟨spiv, hspiv, hsucc⟩ := except_bind_ok_elim hsucc
    obtain ⟨reg, hreg, hsucc⟩ := except_bind_ok_elim hsucc
    rw [deviceIrqFields_absent hmiss, exceptBindOk] at hsucc
    obtain ⟨pl, hpl, hsucc⟩ := except_bind_ok_elim hsucc
    obtain ⟨gl, hgl, hsucc⟩ := except_bind_ok_elim hsucc
    obtain ⟨rl, hrl, hsucc⟩ := except_bind_ok_elim hsucc
    obtain ⟨cl, hcl, hsucc⟩ := except_bind_ok_elim hsucc
    have hr := exceptPureOk hsucc
    subst hr
    exact ⟨rfl, rfl⟩

def devSec : String := "device-descriptor 0x1"

def devOptsSpiMissingMsh : List (String × String) :=
  [("driver-string-id", "0x1"), ("protocol", "0xb"), ("reg", "0x2")]

def devOptsSpiMissingMode : List (String × String) :=
  [("driver-string-id", "0x1"), ("protocol", "0xb"), ("max-speed-hz", "0x100"),
   ("reg", "0x2")]

def devOptsI2c : List (String × String) :=
  [("driver-string-id", "0x1"), ("protocol", "0x0"), ("reg", "0x2")]

def devOptsNoReg : List (String × String) :=
  [("driver-string-id", "0x1"), ("protocol", "0x0")]

def devOptsUart : List (String × String) :=
  [("driver-string-id", "0x1"), ("protocol", "0x4")]

def devOptsIrqNoType : List (String × String) :=
  [("driver-string-id", "0x1"), ("protocol", "0x0"), ("reg", "0x2"),
   ("irq", "0x5")]

/-- Witness for C8: each conditional-field rule instantiated on a concrete
device-descriptor section. -/
theorem C8_device_conditional_fields_witness :
    parseDeviceSection devSec devOptsSpiMissingMsh =
      .error (.error ("missing field '" ++ DEVICE_DESC_MAX_SPEED_HZ ++
        "' in '[" ++ devSec ++ "]'")) ∧
    parseDeviceSection devSec devOptsSpiMissingMode =
      .error (.error ("missing field '" ++ DEVICE_DESC_MODE ++
        "' in '[" ++ devSec ++ "]'")) ∧
    ((⟨devSec, false, 1, 1, 0, 2, 0, 0, 0, 0, 0, 0, 0, 0⟩ :
        DeviceDescriptor).max_speed_hz = 0 ∧
      (⟨devSec, false, 1, 1, 0, 2, 0, 0, 0, 0, 0, 0, 0, 0⟩ :
        DeviceDescriptor).mode = 0) ∧
    parseDeviceSection devSec devOptsNoReg =
      .error (.error ("missing field '" ++ DEVICE_DESC_REG ++
        "' in '[" ++ devSec ++ "]'")) ∧
    (⟨devSec, false, 1, 1, 4, 0, 0, 0, 0, 0, 0, 0, 0, 0⟩ :
        DeviceDescriptor).reg = 0 ∧
    parseDeviceSection devSec devOptsIrqNoType =
      .error (.error ("missing field '" ++ DEVICE_DESC_IRQ_TYPE ++
        "' in '[" ++ devSec ++ "]'")) ∧
    ((⟨devSec, false, 1, 1, 0, 2, 0, 0, 0, 0, 0, 0, 0, 0⟩ :
        DeviceDescriptor).irq = 0 ∧
      (⟨devSec, false, 1, 1, 0, 2, 0, 0, 0, 0, 0, 0, 0, 0⟩ :
        DeviceDescriptor).irq_type = 0) :=
  ⟨C8_device_conditional_fields.1 devSec devOptsSpiMissingMsh 1 1
      (by rfl) (by rfl) (by rfl) (by rfl),
   C8_device_conditional_fields.2.1 devSec devOptsSpiMissingMode 1 1 256
      (by rfl) (by rfl) (by rfl) (by rfl) (by rfl),
   C8_device_conditional_fields.2.2.1 devSec devOptsI2c 0
      ⟨devSec, false, 1, 1, 0, 2, 0, 0, 0, 0, 0, 0, 0, 0⟩
      (by rfl) (by decide) (by rfl),
   C8_device_conditional_fields.2.2.2.1 devSec devOptsNoReg 1 1 0
      (by rfl) (by rfl) (by rfl) (by decide) (by decide) (by rfl),
   C8_device_conditional_fields.2.2.2.2.1 devSec devOptsUart
      ⟨devSec, false, 1, 1, 4, 0, 0, 0, 0, 0, 0, 0, 0, 0⟩
      (by rfl) (by rfl),
   C8_device_conditional_fields.2.2.2.2.2.1 devSec devOptsIrqNoType 1 1 0 2 5
      (by rfl) (by rfl) (by rfl) (by decide) (by decide) (by rfl)
      (by rfl) (by rfl) (by rfl),
   C8_device_conditional_fields.2.2.2.2.2.2.1 devSec devOptsI2c
      ⟨devSec, false, 1, 1, 0, 2, 0, 0, 0, 0, 0, 0, 0, 0⟩
      (by rfl) (by rfl)⟩

theorem addDescDict_ok {α : Type} {dict : List (Int × α)} {id_ : Int} {d : α}
    {render : α → String} {dict' : List (Int × α)}
    (h : addDescDict dict id_ d render = .ok dict') :
    dict' = dict ++ [(id_, d)] := by
  unfold addDescDict at h
  cases hl : dict.lookup id_ with
  | some old => rw [hl] at h; cases h
  | none => rw [hl] at h; exact (Except.ok.inj h).symm

theorem add_string_desc_bundle_descs {m m' : Manifest} {d : StringDescriptor}
    (h : m.add_string_desc d = .ok m') : m'.bundle_descs = m.bundle_descs := by
  unfold Manifest.add_string_desc at h
  obtain ⟨dict, hd, h⟩ := except_bind_ok_elim h
  have hr := exceptPureOk h
  subst hr
  rfl

theorem add_property_desc_bundle_descs {m m' : Manifest} {d : PropertyDescriptor}
    (h : m.add_property_desc d = .ok m') : m'.bundle_descs = m.bundle_descs := by
  unfold Manifest.add_property_desc at h
  obtain ⟨dict, hd, h⟩ := except_bind_ok_elim h
  have hr := exceptPureOk h
  subst hr
  rfl

theorem add_device_desc_bundle_descs {m m' : Manifest} {d : DeviceDescriptor}
    (h : m.add_device_desc d = .ok m') : m'.bundle_descs = m.bundle_descs := by
  unfold Manifest.add_device_desc at h
  obtain ⟨dict, hd, h⟩ := except_bind_ok_elim h
  have hr := exceptPureOk h
  subst hr
  rfl

theorem add_cport_desc_bundle_descs {m m' : Manifest} {d : CPortDescriptor}
    (h : m.add_cport_desc d = .ok m') : m'.bundle_descs = m.bundle_descs := by
  unfold Manifest.add_cport_desc at h
  obtain ⟨dict, hd, h⟩ := except_bind_ok_elim h
  have hr := exceptPureOk h
  subst hr
  rfl

theorem add_interface_desc_bundle_descs {m m' : Manifest} {d : InterfaceDescriptor}
    (h : m.add_interface_desc d = .ok m') : m'.bundle_descs = m.bundle_descs := by
  unfold Manifest.add_interface_desc at h
  cases hm : m.interface_desc with
  | some x => rw [hm] at h; cases h
  | none =>
    rw [hm] at h
    have hr := Except.ok.inj h
    subst hr
    rfl

theorem add_bundle_desc_bundle_descs {m m' : Manifest} {d : BundleDescriptor}
    (h : m.add_bundle_desc d = .ok m') :
    m'.bundle_descs = m.bundle_descs ++ [(d.id_, d)] := by
  unfold Manifest.add_bundle_desc at h
  obtain ⟨dict, hd, h⟩ := except_bind_ok_elim h
  have hr := exceptPureOk h
  subst hr
  exact addDescDict_ok hd

/-- A bundle built by `parseBundleSection` always starts with no cports and
an unset used flag. -/
theorem parseBundleSection_fresh {sec : String} {opts : List (String × String)}
    {bid : Int} {b : BundleDescriptor} {bid' : Int}
    (h : parseBundleSection sec opts bid = .ok (b, bid')) :
    b.cports = [] ∧ b.used = false := by
  unfold parseBundleSection at h
  obtain ⟨id_, hid, h⟩ := except_bind_ok_elim h
  obtain ⟨class_, hc, h⟩ := except_bind_ok_elim h
  unfold bundleDescInit at h
  split at h
  · cases h
  · split at h
    · split at h
      · cases h
      · rw [Except.ok.injEq, Prod.mk.injEq] at h
        obtain ⟨hb, _⟩ := h
        subst hb
        exact ⟨rfl, rfl⟩
    · rw [Except.ok.injEq, Prod.mk.injEq] at h
      obtain ⟨hb, _⟩ := h
      subst hb
      exact ⟨rfl, rfl⟩

/-- One parse step only ever adds bundles whose cports list is empty and
whose used flag is unset. -/
theorem parseOneSection_bundles {s : Sect} {m : Manifest} {bid : Int}
    {m' : Manifest} {bid' : Int}
    (h : parseOneSection s m bid = .ok (m', bid')) :
    ∀ p ∈ m'.bundle_descs,
      p ∈ m.bundle_descs ∨ (p.2.cports = [] ∧ p.2.used = false) := by
  unfold parseOneSection at h
  split at h
  · cases h
  split at h
  · obtain ⟨hdr, hh, h⟩ := except_bind_ok_elim h
    have hr := exceptPureOk h
    rw [Prod.mk.injEq] at hr
    obtain ⟨hm', _⟩ := hr
    subst hm'
    intro p hp
    exact Or.inl hp
  split at h
  · obtain ⟨d, hd, h⟩ := except_bind_ok_elim h
    obtain ⟨m1, hm1, h⟩ := except_bind_ok_elim h
    have hr := exceptPureOk h
    rw [Prod.mk.injEq] at hr
    obtain ⟨hm', _⟩ := hr
    subst hm'
    intro p hp
    rw [add_interface_desc_bundle_descs hm1] at hp
    exact Or.inl hp
  split at h
  · obtain ⟨d, hd, h⟩ := except_bind_ok_elim h
    have hr := exceptPureOk h
    rw [Prod.mk.injEq] at hr
    obtain ⟨hm', _⟩ := hr
    subst hm'
    intro p hp
    exact Or.inl hp
  split at h
  · cases h
  split at h
  · obtain ⟨d, hd, h⟩ := except_bind_ok_elim h
    obtain ⟨m1, hm1, h⟩ := except_bind_ok_elim h
    have hr := exceptPureOk h
    rw [Prod.mk.injEq] at hr
    obtain ⟨hm', _⟩ := hr
    subst hm'
    intro p hp
    rw [add_string_desc_bundle_descs hm1] at hp
    exact Or.inl hp
  split at h
  · obtain ⟨d, hd, h⟩ := except_bind_ok_elim h
    obtain ⟨m1, hm1, h⟩ := except_bind_ok_elim h
    have hr := exceptPureOk h
    rw [Prod.mk.injEq] at hr
    obtain ⟨hm', _⟩ := hr
    subst hm'
    intro p hp
    rw [add_property_desc_bundle_descs hm1] at hp
    exact Or.inl hp
  split at h
  · obtain ⟨db, hdb, h⟩ := except_bind_ok_elim h
    obtain ⟨b, bid1⟩ := db
    have hfresh := parseBundleSection_fresh hdb
    obtain ⟨m1, hm1, h⟩ := except_bind_ok_elim h
    have hr := exceptPureOk h
    rw [Prod.mk.injEq] at hr
    obtain ⟨hm', _⟩ := hr
    subst hm'
    intro p hp
    rw [add_bundle_desc_bundle_descs hm1] at hp
    rcases List.mem_append.mp hp with h1 | h2
    · exact Or.inl h1
    · have hpb : p = (b.id_, b) := List.mem_singleton.mp h2
      subst hpb
      exact Or.inr hfresh
  split at h
  · obtain ⟨d, hd, h⟩ := except_bind_ok_elim h
    obtain ⟨m1, hm1, h⟩ := except_bind_ok_elim h
    have hr := exceptPureOk h
    rw [Prod.mk.injEq] at hr
    obtain ⟨hm', _⟩ := hr
    subst hm'
    intro p hp
    rw [add_cport_desc_bundle_descs hm1] at hp
    exact Or.inl hp
  split at h
  · obtain ⟨d, hd, h⟩ := except_bind_ok_elim h
    obtain ⟨m1, hm1, h⟩ := except_bind_ok_elim h
    have hr := exceptPureOk h
    rw [Prod.mk.injEq] at hr
    obtain ⟨hm', _⟩ := hr
    subst hm'
    intro p hp
    rw [add_device_desc_bundle_descs hm1] at hp
    exact Or.inl hp
  · cases h

/-- The section loop preserves the bundles-are-fresh invariant. -/
theorem parseSections_bundles :
    ∀ (l : List Sect) (m : Manifest) (bid : Int) (m' : Manifest) (bid' : Int),
      parseSections l m bid = .ok (m', bid') →
      (∀ p ∈ m.bundle_descs, p.2.cports = [] ∧ p.2.used = false) →
      ∀ p ∈ m'.bundle_descs, p.2.cports = [] ∧ p.2.used = false := by
  intro l
  induction l with
  | nil =>
    intro m bid m' bid' h hin
    unfold parseSections at h
    have hr := Except.ok.inj h
    rw [Prod.mk.injEq] at hr
    obtain ⟨hm', _⟩ := hr
    subst hm'
    exact hin
  | cons s rest ih =>
    intro m bid m' bid' h hin
    unfold parseSections at h
    obtain ⟨mb, hone, h⟩ := except_bind_ok_elim h
    obtain ⟨m1, bid1⟩ := mb
    have hstep := parseOneSection_bundles hone
    exact ih m1 bid1 m' bid' h
      (fun p hp => (hstep p hp).elim (fun h1 => hin p h1) id)

/-- C10 — After any successful `parse_file`, every bundle descriptor of the
returned manifest has an empty cports list and an unset used flag: the
parser never invokes `BundleDescriptor.add_cport`, so cports are never
associated with their bundle in the in-memory model. -/
theorem C10_parsed_bundles_unlinked :
    ∀ (txt : String) (bid : Int) (m : Manifest) (bid' : Int),
      parse_file txt bid = .ok (m, bid') →
      ∀ p ∈ m.bundle_descs, p.2.cports = [] ∧ p.2.used = false := by
  intro txt bid m bid' h
  unfold parse_file at h
  obtain ⟨sects, hs, h⟩ := except_bind_ok_elim h
  refine parseSections_bundles sects Manifest.init bid m bid' h ?_
  intro p hp
  simp [Manifest.init] at hp

/-- Witness for C10: the bundle of a concrete parsed document. -/
theorem C10_parsed_bundles_unlinked_witness :
    ((⟨"bundle-descriptor 0x1", false, 1, 0, []⟩ : BundleDescriptor).cports = [] ∧
     (⟨"bundle-descriptor 0x1", false, 1, 0, []⟩ : BundleDescriptor).used = false) :=
  C10_parsed_bundles_unlinked mnfsDocBundleId1Class0 1
    ⟨none, [.bundleD ⟨"bundle-descriptor 0x1", false, 1, 0, []⟩], [], [], [],
      none, none, [(1, ⟨"bundle-descriptor 0x1", false, 1, 0, []⟩)], []⟩ 2
    (by rfl)
    (1, ⟨"bundle-descriptor 0x1", false, 1, 0, []⟩) (by simp)
